import Mathlib

/-!
Shallow embedding of `logging_with_arcpy.py` (module `logging_with_arcpy`).

The module manipulates Python's process-wide root logger. We model the root
logger as an explicit state value (`RootLogger`): a list of attached handlers
plus the root severity threshold. Severity levels are the numeric values of
Python's `logging` module. Calls into the environment that can fail
(`socket.gethostname()`) are passed in as `Except Unit String` values;
`os.getenv('USERNAME')` is passed in as `Option String` (it returns `None`
rather than raising when the variable is unset). Functions that can let an
exception escape return `Except Unit RootLogger`.

`ArcPyLogHandler.emit` is modelled as a function from a record to the list of
output effects it performs (host-channel calls and backing-file writes), with
`self.format` passed in as a possibly-failing function, mirroring the
`try/except` in the source.
-/

namespace LoggingWithArcpy

/-- Numeric severity levels of Python's `logging` module. -/
def NOTSET : Nat := 0

/-- Python `logging.DEBUG`. -/
def DEBUG : Nat := 10

/-- Python `logging.INFO`. -/
def INFO : Nat := 20

/-- Python `logging.WARNING`. -/
def WARNING : Nat := 30

/-- Python `logging.ERROR`. -/
def ERROR : Nat := 40

/-- Python `logging.CRITICAL`. -/
def CRITICAL : Nat := 50

/-- The kind of a handler attached to the root logger: the stream handler that
`logging.basicConfig` installs, a `logging.FileHandler(filename, mode, ...)`,
or an `ArcPyLogHandler` (a `RotatingFileHandler` subclass). -/
inductive HandlerKind where
  | stream : HandlerKind
  | file (filename : String) (mode : String) : HandlerKind
  | arcpy (filename : String) : HandlerKind
  deriving DecidableEq

/-- A handler: one output destination with its severity threshold and its
formatter (format template and date-format template), plus the flushed/closed
bookkeeping touched by `flush_and_close_logger` / `logging.shutdown`. -/
structure Handler where
  kind : HandlerKind
  level : Nat
  fmt : String
  datefmt : String
  flushed : Bool
  closed : Bool
  deriving DecidableEq

/-- The configuration part of a handler (everything except the flushed/closed
bookkeeping flags). -/
def Handler.config (h : Handler) : HandlerKind × Nat × String × String :=
  (h.kind, h.level, h.fmt, h.datefmt)

/-- The process-wide root logger: its attached handlers and its level. -/
structure RootLogger where
  handlers : List Handler
  level : Nat
  deriving DecidableEq

/-- A pristine root logger: no handlers, default level `WARNING`. -/
def pristineRoot : RootLogger := { handlers := [], level := WARNING }

/-- How Python's `str.format` renders an argument: `os.getenv` yields `None`
when the variable is unset, and `"{}".format(None)` renders as `"None"`. -/
def pyFormatArg : Option String → String
  | some s => s
  | none => "None"

/-- Python's `str.upper()` as applied to the host name, modelled
character-wise. -/
def pyUpper (s : String) : String := ⟨s.data.map Char.toUpper⟩

/-- The default format template, from lines 67 and 92 of the source: the
template `"%(asctime)s "` + user + `" "` + host + `" %(message)s"` built with
`os.getenv('USERNAME')` and `socket.gethostname().upper()`. -/
def default_fmt (username : Option String) (hostname : String) : String :=
  "%(asctime)s " ++ pyFormatArg username ++ " " ++ pyUpper hostname ++ " %(message)s"

/-- Python's `logging.BASIC_FORMAT`, used by `basicConfig`'s default handler. -/
def BASIC_FORMAT : String := "%(levelname)s:%(name)s:%(message)s"

/-- `logging.basicConfig(level=...)`: if the root logger already has handlers
it does nothing; otherwise it attaches a default stream handler and sets the
root level. -/
def basicConfig (level : Nat) (rl : RootLogger) : RootLogger :=
  if rl.handlers.isEmpty then
    { handlers := [{ kind := .stream, level := NOTSET, fmt := BASIC_FORMAT,
                     datefmt := "", flushed := false, closed := false }],
      level := level }
  else rl

/-- One iteration of the removal loop at lines 79-80 of the source:
`root_logger.removeHandler(root_logger.handlers[i])`. `removeHandler` removes
the first matching entry of the current handler list; an out-of-range index
cannot occur in the loop. -/
def removeStep (hs : List Handler) (i : Nat) : List Handler :=
  match hs[i]? with
  | some h => hs.erase h
  | none => hs

/-- The removal loop of `init_logging`: `for i in range(len(handlers)-1, -1, -1)`
removes `handlers[i]` from the back, re-reading the current list each time.
The range is computed once, from the initial length. -/
def removeBackward (hs : List Handler) : List Handler :=
  (List.range hs.length).reverse.foldl removeStep hs

/-- The handler mutation performed by `add_handler`: `h.setLevel(level)` and
`h.setFormatter(logging.Formatter(fmt, datefmt))`. -/
def Handler.configure (h : Handler) (level : Nat) (fmt datefmt : String) : Handler :=
  { h with level := level, fmt := fmt, datefmt := datefmt }

/-- `add_handler(h, level, fmt, datefmt)` (lines 87-103): computes the default
format when `fmt` is empty (calling `socket.gethostname()`, which may raise),
builds `logging.Formatter(fmt, datefmt)`, sets the handler's level and
formatter, and appends the handler to the root logger's list. -/
def add_handler (username : Option String) (gethostname : Except Unit String)
    (h : Handler) (level : Nat) (fmt : String) (datefmt : String)
    (rl : RootLogger) : Except Unit RootLogger :=
  match (if fmt = "" then gethostname.map (default_fmt username) else .ok fmt) with
  | .error e => .error e
  | .ok f =>
      .ok { rl with handlers := rl.handlers ++ [h.configure level f datefmt] }

/-- `init_logging(filename, level, fmt, datefmt, mode)` (lines 32-84): computes
a default `fmt` when it is empty (this local value is never used afterwards),
runs `basicConfig(level=NOTSET)`, removes all handlers from the back, and then
calls `add_handler(FileHandler(filename, mode), level=level)` — note the
source passes only `level`, so `add_handler` runs with its own defaults
`fmt=""` and `datefmt='%d-%m-%Y %H:%M'`; the `datefmt` argument of
`init_logging` is likewise never used. -/
def init_logging (username : Option String) (gethostname : Except Unit String)
    (filename : String) (level : Nat) (fmt : String) (datefmt : String)
    (mode : String) (rl : RootLogger) : Except Unit RootLogger :=
  match (if fmt = "" then gethostname.map (default_fmt username) else .ok fmt) with
  | .error e => .error e
  | .ok _fmtUnused =>
      let rl1 := basicConfig NOTSET rl
      let rl2 : RootLogger := { rl1 with handlers := removeBackward rl1.handlers }
      add_handler username gethostname
        { kind := .file filename mode, level := NOTSET, fmt := "", datefmt := "",
          flushed := false, closed := false }
        level "" "%d-%m-%Y %H:%M" rl2

/-- `logging.shutdown()`: flushes and closes every handler; it does not detach
any handler from the root logger's list. -/
def shutdown (rl : RootLogger) : RootLogger :=
  { rl with handlers := rl.handlers.map fun h => { h with flushed := true, closed := true } }

/-- `flush_and_close_logger()` (lines 106-110): flushes every handler of the
root logger, then calls `logging.shutdown()`. -/
def flush_and_close_logger (rl : RootLogger) : RootLogger :=
  shutdown { rl with handlers := rl.handlers.map fun h => { h with flushed := true } }

/-- `_logging_is_active()` (lines 113-116): `len(getLogger().handlers) > 0`. -/
def logging_is_active (rl : RootLogger) : Bool :=
  decide (0 < rl.handlers.length)

/-- A log record as seen by `emit`: its numeric level and raw message. -/
structure Record where
  levelno : Nat
  msg : String
  deriving DecidableEq

/-- An output effect of a handler: one of the three arcpy host-channel calls,
or a write to the handler's backing file (the inherited
`RotatingFileHandler.emit` path). -/
inductive Effect where
  | addError (msg : String) : Effect
  | addWarning (msg : String) : Effect
  | addMessage (msg : String) : Effect
  | fileWrite (msg : String) : Effect
  deriving DecidableEq

/-- Whether an effect is a write to the backing file. -/
def Effect.isFileWrite : Effect → Bool
  | .fileWrite _ => true
  | _ => false

/-- `ArcPyLogHandler.emit(record)` (lines 129-153): tries `self.format(record)`
and on any exception falls back to `record.msg`; then dispatches the message to
exactly one arcpy channel by `record.levelno`. The `super().emit(record)` call
that would write to the backing file is commented out in the source, so no
`fileWrite` effect is produced. `format` stands for `self.format`, which may
raise. -/
def ArcPyLogHandler.emit (format : Record → Except Unit String)
    (record : Record) : List Effect :=
  let my_msg := match format record with
    | .ok s => s
    | .error _ => record.msg
  if ERROR ≤ record.levelno then [.addError my_msg]
  else if WARNING ≤ record.levelno then [.addWarning my_msg]
  else [.addMessage my_msg]

/-- The inherited `logging.handlers.RotatingFileHandler.emit`: writes the
formatted record to the backing file. `ArcPyLogHandler.emit` never invokes it. -/
def RotatingFileHandler.emit (format : Record → Except Unit String)
    (record : Record) : List Effect :=
  match format record with
  | .ok s => [.fileWrite s]
  | .error _ => []

/- Helper lemmas -/

/-- The backward removal loop empties any handler list of length `n`. -/
theorem removeBackward_aux (n : Nat) :
    ∀ hs : List Handler, hs.length = n →
      (List.range n).reverse.foldl removeStep hs = [] := by
  induction n with
  | zero =>
      intro hs h
      rw [List.length_eq_zero] at h
      simp [h]
  | succ n ih =>
      intro hs h
      rw [List.range_succ, List.reverse_append]
      simp only [List.reverse_singleton, List.singleton_append, List.foldl_cons]
      apply ih
      have hlt : n < hs.length := by omega
      rw [removeStep, List.getElem?_eq_getElem hlt]
      simp only
      rw [List.length_erase_of_mem (List.getElem_mem hlt)]
      omega

/-- The removal loop of `init_logging` always leaves the registry empty. -/
theorem removeBackward_eq_nil (hs : List Handler) : removeBackward hs = [] :=
  removeBackward_aux hs.length hs rfl

/- Claim theorems -/

/-- C1: for every prior state of the root-logger registry (any number of
pre-attached handlers, including zero), `init_logging` first empties the
registry (the backward removal loop leaves it empty regardless of its prior
contents) and then attaches exactly one new file handler, so after the call
exactly one handler — the one this call configured — is attached; in
particular a second `init_logging` call applied to the state left by a first
one again leaves exactly that one handler. -/
theorem init_logging_resets_to_single_handler
    (username : Option String) (host : String) (filename : String) (level : Nat)
    (fmt datefmt mode : String) (rl : RootLogger) :
    removeBackward rl.handlers = [] ∧
    (init_logging username (.ok host) filename level fmt datefmt mode rl).toOption.map
        RootLogger.handlers =
      some [{ kind := .file filename mode, level := level,
              fmt := default_fmt username host, datefmt := "%d-%m-%Y %H:%M",
              flushed := false, closed := false }] := by
  refine ⟨removeBackward_eq_nil _, ?_⟩
  by_cases hf : fmt = "" <;>
    simp [init_logging, add_handler, hf, Except.map, Except.toOption,
      removeBackward_eq_nil, Handler.configure]

/-- C2: every record passed to `ArcPyLogHandler.emit` is dispatched to exactly
one host channel: `arcpy.AddError` when its level is at least `ERROR`, else
`arcpy.AddWarning` when at least `WARNING`, else `arcpy.AddMessage`. -/
theorem emit_routes_exactly_one_channel
    (format : Record → Except Unit String) (r : Record) :
    ∃ m : String,
      ArcPyLogHandler.emit format r =
        [if ERROR ≤ r.levelno then Effect.addError m
         else if WARNING ≤ r.levelno then Effect.addWarning m
         else Effect.addMessage m] := by
  refine ⟨(match format r with | .ok s => s | .error _ => r.msg), ?_⟩
  unfold ArcPyLogHandler.emit
  by_cases h1 : ERROR ≤ r.levelno
  · simp [h1]
  · by_cases h2 : WARNING ≤ r.levelno <;> simp [h1, h2]

/-- C3 (evaluation at the failing input): `init_logging` called with the
caller's own non-empty format template `"%(asctime)s %(message)s"` and date
format `"%Y"` attaches a handler whose formatter carries the recomputed
default template and the default date format instead — the caller's `fmt` and
`datefmt` are silently dropped, because `init_logging` never passes them to
`add_handler`. -/
theorem init_logging_ignores_caller_formats :
    (init_logging (some "alice") (.ok "box1") "log.txt" INFO
        "%(asctime)s %(message)s" "%Y" "a" pristineRoot).toOption.map
      (fun s => s.handlers.map fun h => (h.fmt, h.datefmt)) =
      some [("%(asctime)s alice BOX1 %(message)s", "%d-%m-%Y %H:%M")] := by
  rfl

/-- C4: with an empty format template, the default template used — as actually
installed on the handler by `add_handler`, and likewise on the single handler
`init_logging` attaches — is `"%(asctime)s "` followed by the user name, a
space, the upper-cased host name, and `" %(message)s"`; for user `alice` on
host `box1` it is `"%(asctime)s alice BOX1 %(message)s"`. -/
theorem default_format_template
    (user host : String) (h : Handler) (level : Nat) (d fn mode : String)
    (rl : RootLogger) :
    default_fmt (some user) host =
      "%(asctime)s " ++ user ++ " " ++ pyUpper host ++ " %(message)s" ∧
    default_fmt (some "alice") "box1" = "%(asctime)s alice BOX1 %(message)s" ∧
    add_handler (some user) (.ok host) h level "" d rl =
      .ok { rl with handlers := rl.handlers ++
        [h.configure level ("%(asctime)s " ++ user ++ " " ++ pyUpper host ++ " %(message)s") d] } ∧
    (init_logging (some user) (.ok host) fn level "" d mode rl).toOption.map
        (fun s => s.handlers.map Handler.fmt) =
      some ["%(asctime)s " ++ user ++ " " ++ pyUpper host ++ " %(message)s"] := by
  refine ⟨rfl, rfl, rfl, ?_⟩
  simp [init_logging, add_handler, Except.map, Except.toOption,
    removeBackward_eq_nil, default_fmt, pyFormatArg, Handler.configure]

/-- C5: when `self.format(record)` raises, `emit` catches the exception
locally and dispatches the record's raw message to exactly one host channel;
no formatting failure escapes `emit` (its result is total by construction). -/
theorem emit_format_failure_falls_back (format : Record → Except Unit String)
    (r : Record) (hfail : format r = .error ()) :
    ArcPyLogHandler.emit format r =
      [if ERROR ≤ r.levelno then Effect.addError r.msg
       else if WARNING ≤ r.levelno then Effect.addWarning r.msg
       else Effect.addMessage r.msg] := by
  unfold ArcPyLogHandler.emit
  rw [hfail]
  by_cases h1 : ERROR ≤ r.levelno
  · simp [h1]
  · by_cases h2 : WARNING ≤ r.levelno <;> simp [h1, h2]

/-- Witness for C5 at a concrete input: a formatter that always fails and an
INFO-level record with raw message "raw payload" still reach the message
channel with the raw payload. -/
theorem emit_format_failure_falls_back_witness :
    ArcPyLogHandler.emit (fun _ => .error ()) { levelno := INFO, msg := "raw payload" } =
      [Effect.addMessage "raw payload"] := by
  rw [emit_format_failure_falls_back (fun _ => .error ())
    { levelno := INFO, msg := "raw payload" } rfl]
  decide

/-- C6: `add_handler` is purely additive: it returns the registry with every
previously attached handler unchanged and in place, with exactly the given
handler appended, carrying the given level and the formatter built from the
(possibly defaulted) format and the given date format. -/
theorem add_handler_purely_additive
    (username : Option String) (host : String) (h : Handler) (level : Nat)
    (fmt datefmt : String) (rl : RootLogger) :
    add_handler username (.ok host) h level fmt datefmt rl =
      .ok { rl with handlers := rl.handlers ++
        [h.configure level (if fmt = "" then default_fmt username host else fmt) datefmt] } := by
  by_cases hf : fmt = "" <;> simp [add_handler, hf, Except.map]

/-- C7: for every record, `ArcPyLogHandler.emit` performs no write to the
backing file of its rolling-file-handler base (no `fileWrite` effect occurs)
and performs exactly one output effect, the single host-channel call. -/
theorem emit_skips_backing_file (format : Record → Except Unit String)
    (r : Record) :
    (ArcPyLogHandler.emit format r).filter Effect.isFileWrite = [] ∧
    (ArcPyLogHandler.emit format r).length = 1 := by
  unfold ArcPyLogHandler.emit
  by_cases h1 : ERROR ≤ r.levelno
  · simp [h1, Effect.isFileWrite]
  · by_cases h2 : WARNING ≤ r.levelno <;> simp [h1, h2, Effect.isFileWrite]

/-- C8: the is-logging-active predicate returns true iff at least one handler
is attached to the root logger; in particular it is false on a pristine
registry with zero handlers and true immediately after one `add_handler`
call on a pristine registry. -/
theorem logging_is_active_iff_handler_attached
    (rl : RootLogger) (lvl level : Nat) (username : Option String) (host : String)
    (h : Handler) (fmt datefmt : String) :
    (logging_is_active rl = true ↔ rl.handlers ≠ []) ∧
    logging_is_active { handlers := [], level := lvl } = false ∧
    (add_handler username (.ok host) h level fmt datefmt
        { handlers := [], level := lvl }).toOption.map logging_is_active =
      some true := by
  refine ⟨?_, rfl, ?_⟩
  · simp [logging_is_active, List.length_pos]
  · by_cases hf : fmt = "" <;>
      simp [add_handler, hf, Except.map, Except.toOption, logging_is_active]

/-- C9 (counterexample to the claim as stated): when the hostname read fails
(`socket.gethostname()` raises), `init_logging` with the default empty format
aborts with the propagated exception instead of degrading to a placeholder
value in the template. -/
theorem init_logging_aborts_on_hostname_failure :
    init_logging none (.error ()) "log.txt" INFO "" "%d-%m-%Y %H:%M" "a"
      pristineRoot = .error () := by
  rfl

/-- C9 (amended): a missing user identity (`os.getenv('USERNAME')` returning
no value) degrades to the placeholder `None` inside the default template
rather than aborting, but a failure of the hostname read is not caught and
propagates out of `add_handler` (and hence out of `init_logging`). -/
theorem default_format_username_degrades_hostname_aborts
    (host : String) (h : Handler) (level : Nat) (d : String) (rl : RootLogger) :
    add_handler none (.ok host) h level "" d rl =
      .ok { rl with handlers := rl.handlers ++
        [h.configure level ("%(asctime)s None " ++ pyUpper host ++ " %(message)s") d] } ∧
    add_handler none (.error ()) h level "" d rl = .error () := by
  exact ⟨rfl, rfl⟩

/-- C10: `flush_and_close_logger` removes no handler: afterwards the registry
holds the same handlers (each flushed and closed, configuration untouched),
so the is-logging-active predicate is unchanged, in particular still true
whenever at least one handler was attached before the call. -/
theorem flush_and_close_preserves_handlers (rl : RootLogger) :
    (flush_and_close_logger rl).handlers =
      rl.handlers.map (fun h => { h with flushed := true, closed := true }) ∧
    (flush_and_close_logger rl).handlers.map Handler.config =
      rl.handlers.map Handler.config ∧
    logging_is_active (flush_and_close_logger rl) = logging_is_active rl := by
  refine ⟨?_, ?_, ?_⟩
  · show (rl.handlers.map _).map _ = _
    rw [List.map_map]
    rfl
  · show ((rl.handlers.map _).map _).map _ = _
    rw [List.map_map, List.map_map]
    rfl
  · simp [logging_is_active, flush_and_close_logger, shutdown]

end LoggingWithArcpy
